import Mathlib

/-!
Shallow embedding of the orchestration logic of
src/horovod-keras-example/train.py: checkpoint discovery and resume,
per-worker model construction, the assembled callback list, the learning
rate schedule configured through the Horovod callbacks, the fit call, and
the seeded file listing of the training data pipeline.
-/

namespace TrainPy

/-- Python formatting of a natural number with format code 02d, as used by
the f-strings at lines 152 and 216: decimal digits, zero-padded on the left
to a minimum width of two. -/
def py02d (n : ℕ) : String :=
  if n < 10 then "0" ++ toString n else toString n

/-- Checkpoint artifact path built by the resume scan at line 152:
checkpoints_logging_dir slash checkpoint-epoch-NN.h5 for epoch NN. -/
def checkpoint_filepath (dir : String) (epoch : ℕ) : String :=
  dir ++ "/checkpoint-epoch-" ++ py02d epoch ++ ".h5"

/-- The descending resume scan of lines 149-156: for epoch running from
max_epoch down to 1, the first epoch whose checkpoint file exists in the
filesystem (modelled as the list of existing paths) is returned with its
path; if none exists the result is none. -/
def discover_latest (fs : List String) (dir : String) : ℕ → Option (ℕ × String)
  | 0 => none
  | e + 1 =>
    if checkpoint_filepath dir (e + 1) ∈ fs then
      some (e + 1, checkpoint_filepath dir (e + 1))
    else
      discover_latest fs dir e

/-- The initial_epoch variable after the scan of lines 149-156: the epoch of
the discovered checkpoint, or 0 when no checkpoint file exists. -/
def initial_epoch (fs : List String) (dir : String) (max_epoch : ℕ) : ℕ :=
  match discover_latest fs dir max_epoch with
  | some (e, _) => e
  | none => 0

/-- Modelled from the spec: the hvd.broadcast primitive is library code
outside src. Section 4.2: broadcast_scalar returns, on every worker, the
value held by from_rank. -/
def broadcast_scalar (values : ℕ → ℕ) (from_rank : ℕ) (_rank : ℕ) : ℕ :=
  values from_rank

/-- The initial_epoch value a worker of the given rank passes to fit at line
227. Line 158 calls hvd.broadcast on initial_epoch but does not assign the
returned value, so the broadcast result is dropped and the value found by
the local scan of this worker is the one passed to fit. The filesystem view
of each worker is given per rank. -/
def fit_initial_epoch (fsviews : ℕ → List String) (dir : String)
    (max_epoch rank : ℕ) : ℕ :=
  let local_epoch := initial_epoch (fsviews rank) dir max_epoch
  let _bcast := broadcast_scalar (fun r => initial_epoch (fsviews r) dir max_epoch) 0 rank
  local_epoch

/-- How the model object is obtained on a worker: restored from a checkpoint
file, or constructed fresh. -/
inductive ModelSource
  | loaded (path : String)
  | fresh
deriving DecidableEq

/-- The branch at lines 160-166: when a checkpoint path was discovered and
the rank of the worker is 0, the model is loaded from that path via
hvd.load_model; every other worker, and every worker when no checkpoint
exists, constructs the model fresh. -/
def model_source (fs : List String) (dir : String) (max_epoch rank : ℕ) : ModelSource :=
  match discover_latest fs dir max_epoch with
  | some (_, path) => if rank = 0 then ModelSource.loaded path else ModelSource.fresh
  | none => ModelSource.fresh

/-- Configuration of the freshly constructed model of lines 164-186:
ResNet50 with weights. none (random weights, nothing pretrained),
include_top, SGD with lr scaled by the worker count at line 172, momentum,
wrapped in hvd.DistributedOptimizer at line 175. -/
structure FreshModelConfig where
  weights_pretrained : Bool
  include_top : Bool
  lr : ℚ
  momentum : ℚ
  distributed : Bool
deriving DecidableEq

/-- The fresh model built at lines 164-186 from base_lr, momentum and the
fleet size: initial lr is base_lr times size (line 172). -/
def fresh_model (base_lr momentum : ℚ) (size : ℕ) : FreshModelConfig :=
  { weights_pretrained := false
    include_top := true
    lr := base_lr * size
    momentum := momentum
    distributed := true }

/-- One entry of the callback list assembled at lines 188-221. -/
inductive Callback
  | broadcast_global_variables (root_rank : ℕ)
  | metric_average
  | lr_warmup (warmup_epochs : ℚ)
  | lr_schedule (start_epoch : ℚ) (end_epoch : Option ℚ) (multiplier : ℚ)
  | model_checkpoint (dir : String)
  | tensorboard (dir : String)
deriving DecidableEq

/-- True exactly on the callbacks that adapt the learning rate (the warmup
and schedule callbacks of lines 204-210). -/
def is_lr_adaptation : Callback → Bool
  | Callback.lr_warmup _ => true
  | Callback.lr_schedule _ _ _ => true
  | _ => false

/-- The callback list of lines 188-221, in source order: broadcast of global
variables from rank 0, metric averaging, learning rate warmup, the four
schedule callbacks, and, only on rank 0, the model checkpoint writer and
the tensorboard logger. -/
def callbacks (warmup_epochs : ℚ) (rank : ℕ)
    (checkpoints_dir tensorboard_dir : String) : List Callback :=
  [Callback.broadcast_global_variables 0,
   Callback.metric_average,
   Callback.lr_warmup warmup_epochs,
   Callback.lr_schedule warmup_epochs (some 30) 1,
   Callback.lr_schedule 30 (some 60) (1 / 10),
   Callback.lr_schedule 60 (some 80) (1 / 100),
   Callback.lr_schedule 80 none (1 / 1000)] ++
  (if rank = 0 then
    [Callback.model_checkpoint checkpoints_dir, Callback.tensorboard tensorboard_dir]
  else [])

/-- Number of training images, line 92. -/
def n_training_images : ℕ := 1281167

/-- Number of validation images, line 93. -/
def n_validation_images : ℕ := 50000

/-- Arguments of the model_fn.fit call at lines 225-232. -/
structure FitArgs where
  epochs : ℕ
  initial_epoch : ℕ
  steps_per_epoch : ℕ
  validation_steps : ℕ
  callbacks : List Callback

/-- The fit call of lines 225-232: steps_per_epoch and validation_steps are
the literal constant 10 (lines 228 and 230); the expressions deriving them
from the image counts and batch sizes are commented out there. -/
def fit_args (args_epochs init_epoch : ℕ) (cbs : List Callback) : FitArgs :=
  { epochs := args_epochs
    initial_epoch := init_epoch
    steps_per_epoch := 10
    validation_steps := 10
    callbacks := cbs }

/-- The step count per epoch that the commented-out expression at line 228
would configure: training image count divided by batch_size times size. -/
def configured_steps_per_epoch (batch_size size : ℕ) : ℕ :=
  n_training_images / (batch_size * size)

/-- The validation step count that the commented-out expression at line 230
would configure: validation image count divided by val_batch_size times
size. -/
def configured_validation_steps (val_batch_size size : ℕ) : ℕ :=
  n_validation_images / (val_batch_size * size)

/-- Modelled from the spec: the internals of the Horovod warmup and schedule
callbacks are library code outside src. Composition per section 4.3 with the
configuration of train.py lines 171-175 and 201-211: while epoch is below
warmup_epochs the rate interpolates linearly from base_lr to the target rate
base_lr times num_workers with fraction epoch over warmup_epochs; afterwards
the target rate is multiplied by 1 before epoch 30, by 1/10 from 30, by
1/100 from 60 and by 1/1000 from 80 on. -/
def effective_lr (warmup_epochs epoch base_lr : ℚ) (num_workers : ℕ) : ℚ :=
  if epoch < warmup_epochs then
    base_lr + (epoch / warmup_epochs) * (base_lr * num_workers - base_lr)
  else if epoch < 30 then base_lr * num_workers
  else if epoch < 60 then base_lr * num_workers * (1 / 10)
  else if epoch < 80 then base_lr * num_workers * (1 / 100)
  else base_lr * num_workers * (1 / 1000)

/-- Linear congruential step used by the pseudo-random permutation below. -/
def lcg (s : ℕ) : ℕ := (1103515245 * s + 12345) % 2147483648

/-- Fisher-Yates style pseudo-random selection driven by the seed, with fuel
bounding the recursion by the length of the list. -/
def permuteGo : ℕ → ℕ → List String → List String
  | 0, _, _ => []
  | _ + 1, _, [] => []
  | n + 1, s, x :: xs =>
    let l := x :: xs
    let i := s % l.length
    l.getD i "" :: permuteGo n (lcg s) (l.eraseIdx i)

/-- Deterministic pseudo-random permutation of a listing, a pure function of
the seed and the listing. -/
def permute (seed : ℕ) (l : List String) : List String :=
  permuteGo l.length seed l

/-- Modelled from the spec: tf.data.Dataset.list_files is library code
outside src. With shuffle on and an explicit seed, the listing order is a
pseudo-random permutation determined by the file set and the seed alone;
with shuffle on and no seed, the permutation is drawn from run-specific
entropy; with shuffle off the listing is left in order. -/
def list_files (files : List String) (shuffle : Bool) (seed : Option ℕ)
    (run_entropy : ℕ) : List String :=
  if shuffle then permute (seed.getD run_entropy) files else files

/-- File listing of the training pipeline at line 135: shuffled, with seed
equal to the rank of the worker. The run_entropy argument stands for the
per-run randomness an unseeded shuffle would consume. -/
def training_file_listing (files : List String) (rank run_entropy : ℕ) : List String :=
  list_files files true (some rank) run_entropy

/-- Artifact path the ModelCheckpoint callback of lines 215-218 writes after
the completed epoch with one-based number e: the template of line 216
instantiated at e. Modelled from the spec for the Keras formatting step
(section 4.4 save), which is library code outside src. -/
def model_checkpoint_saved_path (dir : String) (e : ℕ) : String :=
  dir ++ "/checkpoint-epoch-" ++ py02d e ++ ".h5"

/- Helper lemmas about the descending scan. -/

/-- When no checkpoint file for epochs 1..max_epoch is present, the scan
returns none. -/
theorem discover_latest_eq_none (fs : List String) (dir : String) (max_epoch : ℕ)
    (h : ∀ e, 1 ≤ e → e ≤ max_epoch → checkpoint_filepath dir e ∉ fs) :
    discover_latest fs dir max_epoch = none := by
  induction max_epoch with
  | zero => rfl
  | succ m ih =>
    rw [discover_latest, if_neg (h (m + 1) (by omega) (by omega))]
    exact ih fun e h1 h2 => h e h1 (by omega)

/-- When the checkpoint file of epoch e is present and no epoch above e up
to max_epoch has one, the scan returns e with its path. -/
theorem discover_latest_eq_some (fs : List String) (dir : String) (e max_epoch : ℕ)
    (h1 : 1 ≤ e) (h2 : e ≤ max_epoch) (h3 : checkpoint_filepath dir e ∈ fs)
    (h4 : ∀ e2, e < e2 → e2 ≤ max_epoch → checkpoint_filepath dir e2 ∉ fs) :
    discover_latest fs dir max_epoch = some (e, checkpoint_filepath dir e) := by
  induction max_epoch with
  | zero => omega
  | succ m ih =>
    rcases Nat.lt_or_ge e (m + 1) with hlt | hge
    · rw [discover_latest, if_neg (h4 (m + 1) (by omega) (by omega))]
      exact ih (by omega) fun e2 ha hb => h4 e2 ha (by omega)
    · have he : e = m + 1 := by omega
      subst he
      rw [discover_latest, if_pos h3]

/-- C2: with base_lr 0.0125, four workers and warmup_epochs 5, the effective
learning rate is 0.0125 at epoch 0, 0.05 at epoch 5, 0.005 at epoch 40 and
0.00005 at epoch 85, and during warmup it is the linear interpolation from
base_lr to base_lr times the worker count with fraction epoch over
warmup_epochs. -/
theorem c2_end_to_end_schedule :
    effective_lr 5 0 0.0125 4 = 0.0125
    ∧ effective_lr 5 5 0.0125 4 = 0.05
    ∧ effective_lr 5 40 0.0125 4 = 0.005
    ∧ effective_lr 5 85 0.0125 4 = 0.00005
    ∧ ∀ e : ℚ, 0 ≤ e → e < 5 →
        effective_lr 5 e 0.0125 4 = 0.0125 + (e / 5) * (0.0125 * 4 - 0.0125) := by
  refine ⟨by norm_num [effective_lr], by norm_num [effective_lr],
    by norm_num [effective_lr], by norm_num [effective_lr], ?_⟩
  intro e h0 h5
  rw [effective_lr, if_pos h5]
  norm_num

/-- C2 witness: the warmup interpolation at the concrete epoch 5/2. -/
theorem c2_witness :
    ((0 : ℚ) ≤ 5 / 2 ∧ (5 / 2 : ℚ) < 5)
    ∧ effective_lr 5 (5 / 2) 0.0125 4 = 0.0125 + ((5 / 2) / 5) * (0.0125 * 4 - 0.0125) :=
  ⟨⟨by norm_num, by norm_num⟩,
   c2_end_to_end_schedule.2.2.2.2 (5 / 2) (by norm_num) (by norm_num)⟩

/-- C3: the effective learning rate is non-decreasing on epochs below
warmup_epochs, equals base times worker count exactly at warmup_epochs, and
after warmup is piecewise constant with multiplier 1 until epoch 30, 1/10
from 30 to 60, 1/100 from 60 to 80 and 1/1000 from 80 on, hence
non-increasing on all epochs at or above warmup_epochs. -/
theorem c3_schedule_shape (w base : ℚ) (N : ℕ)
    (hw : 0 < w) (hw30 : w < 30) (hN : 1 ≤ N) (hb : 0 ≤ base) :
    (∀ e1 e2 : ℚ, e1 ≤ e2 → e2 < w →
        effective_lr w e1 base N ≤ effective_lr w e2 base N)
    ∧ effective_lr w w base N = base * N
    ∧ (∀ e : ℚ, w ≤ e → e < 30 → effective_lr w e base N = base * N)
    ∧ (∀ e : ℚ, 30 ≤ e → e < 60 → effective_lr w e base N = base * N * (1 / 10))
    ∧ (∀ e : ℚ, 60 ≤ e → e < 80 → effective_lr w e base N = base * N * (1 / 100))
    ∧ (∀ e : ℚ, 80 ≤ e → effective_lr w e base N = base * N * (1 / 1000))
    ∧ (∀ e1 e2 : ℚ, w ≤ e1 → e1 ≤ e2 →
        effective_lr w e2 base N ≤ effective_lr w e1 base N) := by
  have hN1 : (1 : ℚ) ≤ (N : ℚ) := by exact_mod_cast hN
  have hb1 : base ≤ base * N := by nlinarith
  have hbn : (0 : ℚ) ≤ base * (N : ℚ) := by positivity
  have hc : (0 : ℚ) ≤ base * (N : ℚ) - base := by linarith
  have hval : ∀ e : ℚ, w ≤ e → effective_lr w e base N =
      base * (N : ℚ) *
        (if e < 30 then 1 else if e < 60 then 1 / 10 else if e < 80 then 1 / 100 else 1 / 1000) := by
    intro e h
    rw [effective_lr, if_neg (not_lt.mpr h)]
    split_ifs <;> ring
  refine ⟨?_, ?_, ?_, ?_, ?_, ?_, ?_⟩
  · intro e1 e2 h12 h2w
    have h1w : e1 < w := lt_of_le_of_lt h12 h2w
    rw [effective_lr, if_pos h1w, effective_lr, if_pos h2w]
    have hdiv : e1 / w ≤ e2 / w := by
      apply div_le_div_of_nonneg_right h12 hw.le
    nlinarith
  · rw [effective_lr, if_neg (lt_irrefl w), if_pos hw30]
  · intro e h1 h2
    rw [hval e h1, if_pos h2, mul_one]
  · intro e h1 h2
    have hwle : w ≤ e := le_trans hw30.le h1
    rw [hval e hwle, if_neg (not_lt.mpr h1), if_pos h2]
  · intro e h1 h2
    have hwle : w ≤ e := le_trans hw30.le (by linarith)
    rw [hval e hwle, if_neg (by push_neg; linarith), if_neg (not_lt.mpr h1), if_pos h2]
  · intro e h1
    have hwle : w ≤ e := le_trans hw30.le (by linarith)
    rw [hval e hwle, if_neg (by push_neg; linarith), if_neg (by push_neg; linarith),
      if_neg (not_lt.mpr h1)]
  · intro e1 e2 h1 h12
    rw [hval e1 h1, hval e2 (h1.trans h12)]
    have hstep : (if e2 < 30 then (1 : ℚ) else if e2 < 60 then 1 / 10 else if e2 < 80 then 1 / 100 else 1 / 1000)
        ≤ (if e1 < 30 then 1 else if e1 < 60 then 1 / 10 else if e1 < 80 then 1 / 100 else 1 / 1000) := by
      split_ifs <;> linarith
    exact mul_le_mul_of_nonneg_left hstep hbn

/-- C3 witness: the schedule reaches base_lr times worker count exactly at
warmup, instantiated at warmup 5, base 0.0125, four workers. -/
theorem c3_witness :
    ((0 : ℚ) < 5 ∧ (5 : ℚ) < 30 ∧ 1 ≤ (4 : ℕ) ∧ (0 : ℚ) ≤ 0.0125)
    ∧ effective_lr 5 5 0.0125 4 = 0.0125 * ((4 : ℕ) : ℚ) :=
  ⟨⟨by norm_num, by norm_num, by norm_num, by norm_num⟩,
   (c3_schedule_shape 5 0.0125 4 (by norm_num) (by norm_num) (by norm_num) (by norm_num)).2.1⟩

/-- C4: the resume scan runs from max_epoch down to 1 and returns the first,
hence highest, epoch whose checkpoint file exists with its path, and none
when no checkpoint file exists in the scanned range. -/
theorem c4_discover_latest_scan (fs : List String) (dir : String) (max_epoch : ℕ) :
    ((∀ e, 1 ≤ e → e ≤ max_epoch → checkpoint_filepath dir e ∉ fs) →
        discover_latest fs dir max_epoch = none)
    ∧ (∀ e, 1 ≤ e → e ≤ max_epoch → checkpoint_filepath dir e ∈ fs →
        (∀ e2, e < e2 → e2 ≤ max_epoch → checkpoint_filepath dir e2 ∉ fs) →
        discover_latest fs dir max_epoch = some (e, checkpoint_filepath dir e)) :=
  ⟨discover_latest_eq_none fs dir max_epoch,
   fun e h1 h2 h3 h4 => discover_latest_eq_some fs dir e max_epoch h1 h2 h3 h4⟩

/-- C4 witness: with checkpoint files for epochs 5, 12 and 20 and max_epoch
90 the scan returns epoch 20 with its path; with no files it returns none. -/
theorem c4_witness :
    discover_latest [] "logs/checkpoints" 90 = none
    ∧ discover_latest
        [checkpoint_filepath "logs/checkpoints" 5,
         checkpoint_filepath "logs/checkpoints" 12,
         checkpoint_filepath "logs/checkpoints" 20] "logs/checkpoints" 90
      = some (20, checkpoint_filepath "logs/checkpoints" 20) := by
  constructor
  · exact (c4_discover_latest_scan [] "logs/checkpoints" 90).1 (by intro e h1 h2; simp)
  · refine (c4_discover_latest_scan _ "logs/checkpoints" 90).2 20 (by norm_num) (by norm_num)
      (by simp) ?_
    have hb : ∀ e2, e2 < 91 → 20 < e2 →
        checkpoint_filepath "logs/checkpoints" e2 ∉
          [checkpoint_filepath "logs/checkpoints" 5,
           checkpoint_filepath "logs/checkpoints" 12,
           checkpoint_filepath "logs/checkpoints" 20] := by decide
    exact fun e2 ha hbnd => hb e2 (by omega) ha

/-- C5: checkpoint naming round-trips: the artifact written for completed
epoch e carries the zero-padded epoch number and fixed extension that the
resume scan rebuilds, so with the artifact present, no higher epoch saved
and max_epoch at least e the scan finds exactly epoch e. -/
theorem c5_naming_roundtrip (dir : String) (e max_epoch : ℕ) (fs : List String)
    (h1 : 1 ≤ e) (h2 : e ≤ max_epoch)
    (h3 : model_checkpoint_saved_path dir e ∈ fs)
    (h4 : ∀ e2, e < e2 → e2 ≤ max_epoch → checkpoint_filepath dir e2 ∉ fs) :
    discover_latest fs dir max_epoch = some (e, model_checkpoint_saved_path dir e) :=
  discover_latest_eq_some fs dir e max_epoch h1 h2 h3 h4

/-- C5 witness: an artifact saved for epoch 7 is found by the scan with
max_epoch 90. -/
theorem c5_witness :
    discover_latest [model_checkpoint_saved_path "logs/checkpoints" 7] "logs/checkpoints" 90
      = some (7, model_checkpoint_saved_path "logs/checkpoints" 7) := by
  refine c5_naming_roundtrip "logs/checkpoints" 7 90 _ (by norm_num) (by norm_num) (by simp) ?_
  have hb : ∀ e2, e2 < 91 → 7 < e2 →
      checkpoint_filepath "logs/checkpoints" e2 ∉
        [model_checkpoint_saved_path "logs/checkpoints" 7] := by decide
  exact fun e2 ha hbnd => hb e2 (by omega) ha

/-- C6: the fit call passes the literal constant 10 for steps_per_epoch and
validation_steps, overriding the configured derivation from image counts
and batch sizes, which at the default configuration with one worker would
give 40036 training steps and 1562 validation steps. -/
theorem c6_step_counts_hardcoded :
    (fit_args 90 0 (callbacks 5 0 "logs/checkpoints" "logs/tensorboard")).steps_per_epoch = 10
    ∧ (fit_args 90 0 (callbacks 5 0 "logs/checkpoints" "logs/tensorboard")).validation_steps = 10
    ∧ configured_steps_per_epoch 32 1 = 40036
    ∧ configured_validation_steps 32 1 = 1562
    ∧ (fit_args 90 0 (callbacks 5 0 "logs/checkpoints" "logs/tensorboard")).steps_per_epoch
        ≠ configured_steps_per_epoch 32 1
    ∧ (fit_args 90 0 (callbacks 5 0 "logs/checkpoints" "logs/tensorboard")).validation_steps
        ≠ configured_validation_steps 32 1 :=
  ⟨rfl, rfl, rfl, rfl, by decide, by decide⟩

/-- C7: when no checkpoint file exists in the scanned range, the start is a
fresh one: initial epoch 0, the model constructed fresh on every rank, and
the broadcast of global variables from rank 0 heading the callback list. -/
theorem c7_no_checkpoint_fresh_start (fs : List String) (dir : String) (max_epoch : ℕ)
    (h : ∀ e, 1 ≤ e → e ≤ max_epoch → checkpoint_filepath dir e ∉ fs) :
    initial_epoch fs dir max_epoch = 0
    ∧ (∀ rank, model_source fs dir max_epoch rank = ModelSource.fresh)
    ∧ (∀ (w : ℚ) (rank : ℕ) (cd td : String),
        (callbacks w rank cd td).head? = some (Callback.broadcast_global_variables 0)) := by
  have hnone := discover_latest_eq_none fs dir max_epoch h
  refine ⟨?_, ?_, ?_⟩
  · rw [initial_epoch, hnone]
  · intro rank
    rw [model_source, hnone]
  · intro w rank cd td
    rfl

/-- C7 witness: the empty filesystem with max_epoch 85 starts fresh. -/
theorem c7_witness :
    initial_epoch [] "logs/checkpoints" 85 = 0
    ∧ (∀ rank, model_source [] "logs/checkpoints" 85 rank = ModelSource.fresh)
    ∧ (∀ (w : ℚ) (rank : ℕ) (cd td : String),
        (callbacks w rank cd td).head? = some (Callback.broadcast_global_variables 0)) :=
  c7_no_checkpoint_fresh_start [] "logs/checkpoints" 85 (by intro e h1 h2; simp)

/-- C8: in the assembled callback list, on every rank, the broadcast of
initial state is the very first entry, metric averaging is the second, and
every learning rate adaptation callback sits at an index strictly greater
than that of metric averaging. -/
theorem c8_callback_ordering (w : ℚ) (rank : ℕ) (cd td : String) :
    (callbacks w rank cd td).head? = some (Callback.broadcast_global_variables 0)
    ∧ (callbacks w rank cd td).get? 1 = some Callback.metric_average
    ∧ ∀ j c, (callbacks w rank cd td).get? j = some c →
        TrainPy.is_lr_adaptation c = true → 1 < j := by
  refine ⟨rfl, rfl, ?_⟩
  intro j c hj hc
  rcases j with _ | _ | j
  · have h0 : (callbacks w rank cd td).get? 0 = some (Callback.broadcast_global_variables 0) := rfl
    rw [h0] at hj
    cases hj
    exact absurd hc (by decide)
  · have h1 : (callbacks w rank cd td).get? 1 = some Callback.metric_average := rfl
    rw [h1] at hj
    cases hj
    exact absurd hc (by decide)
  · omega

/-- C8 witness: the warmup callback sits at index 2, after metric averaging
at index 1, in the rank 0 list. -/
theorem c8_witness :
    ((callbacks 5 0 "logs/checkpoints" "logs/tensorboard").get? 2 = some (Callback.lr_warmup 5)
     ∧ TrainPy.is_lr_adaptation (Callback.lr_warmup 5) = true)
    ∧ 1 < 2 :=
  ⟨⟨rfl, rfl⟩,
   (c8_callback_ordering 5 0 "logs/checkpoints" "logs/tensorboard").2.2 2
     (Callback.lr_warmup 5) rfl rfl⟩

/-- C9: for a fixed rank, the file listing of the training pipeline is the
same across two independent runs: the listing shuffle is seeded by exactly
the rank, so the per-run entropy an unseeded shuffle would use is ignored.
-/
theorem c9_listing_deterministic (files : List String) (rank entropy1 entropy2 : ℕ) :
    training_file_listing files rank entropy1 = training_file_listing files rank entropy2
    ∧ training_file_listing files rank entropy1 = permute rank files :=
  ⟨rfl, rfl⟩

/-- C10: a worker of nonzero rank constructs the model fresh even when a
checkpoint was discovered: the source is never a filesystem load, the fresh
model has no pretrained weights, a distributed optimizer, and learning rate
base_lr times the fleet size, and the broadcast from rank 0 heads the
callback list of that worker. -/
theorem c10_nonzero_rank_builds_fresh (fs : List String) (dir : String)
    (max_epoch rank e : ℕ) (p : String)
    (hrank : rank ≠ 0)
    (hfound : discover_latest fs dir max_epoch = some (e, p)) :
    model_source fs dir max_epoch rank = ModelSource.fresh
    ∧ (∀ (base_lr momentum : ℚ) (size : ℕ),
        (fresh_model base_lr momentum size).lr = base_lr * size
        ∧ (fresh_model base_lr momentum size).weights_pretrained = false
        ∧ (fresh_model base_lr momentum size).distributed = true)
    ∧ (∀ (w : ℚ) (cd td : String),
        (callbacks w rank cd td).head? = some (Callback.broadcast_global_variables 0)) := by
  refine ⟨?_, fun b m s => ⟨rfl, rfl, rfl⟩, fun w cd td => rfl⟩
  rw [model_source, hfound]
  exact if_neg hrank

/-- C10 witness: rank 1 with a discovered epoch 20 checkpoint still builds
fresh. -/
theorem c10_witness :
    ((1 : ℕ) ≠ 0
     ∧ discover_latest [checkpoint_filepath "run/checkpoints" 20] "run/checkpoints" 90
        = some (20, checkpoint_filepath "run/checkpoints" 20))
    ∧ model_source [checkpoint_filepath "run/checkpoints" 20] "run/checkpoints" 90 1
        = ModelSource.fresh := by
  have h2 : discover_latest [checkpoint_filepath "run/checkpoints" 20] "run/checkpoints" 90
      = some (20, checkpoint_filepath "run/checkpoints" 20) := by decide
  exact ⟨⟨by decide, h2⟩,
    (c10_nonzero_rank_builds_fresh _ _ 90 1 20 _ (by decide) h2).1⟩

/-- C1: the claim fails on the code: line 158 does not assign the result of
the broadcast, so a worker whose local scan found nothing passes 0 to fit
even though the coordinator holds resume epoch 20 and the broadcast
primitive would deliver 20. Concrete input: rank 0 sees the epoch 20
checkpoint file, rank 1 sees an empty directory. -/
theorem c1_broadcast_result_dropped :
    fit_initial_epoch
      (fun r => if r = 0 then [checkpoint_filepath "logs/checkpoints" 20] else [])
      "logs/checkpoints" 90 1 = 0
    ∧ initial_epoch [checkpoint_filepath "logs/checkpoints" 20] "logs/checkpoints" 90 = 20
    ∧ broadcast_scalar
        (fun r => initial_epoch
          ((fun r2 => if r2 = 0 then [checkpoint_filepath "logs/checkpoints" 20] else []) r)
          "logs/checkpoints" 90) 0 1 = 20
    ∧ (0 : ℕ) ≠ 20 :=
  ⟨by decide, by decide, by decide, by decide⟩

end TrainPy
